import Mathlib

/-!
Shallow embedding of the WhatsApp instance manager (`src/whatsapp.js`) and of
the persistence schema (`src/database.js`), with theorems checking the
natural-language specification against the code.

The embedding models each operation as a pure function that returns the
ordered list of observable side effects (its action trace) together with its
JavaScript return/throw behaviour (`Except`).  External collaborators — the
HTTP endpoint of a webhook, the MySQL pool, the filesystem — are modelled as
oracle inputs saying whether each call succeeds.
-/

namespace WhatsappApi

/-- Status code the transport library (Baileys) assigns to an explicit logout,
`DisconnectReason.loggedOut`. -/
def loggedOutCode : Nat := 401

/-- Status code handled specially in the close handler: version mismatch /
rate limit (`statusCode === 405` in `createInstance`). -/
def rateLimitCode : Nat := 405

/-- JavaScript truthiness of an optional string value: `undefined`/`null`
(modelled as `none`) and the empty string are falsy. -/
def truthyStr : Option String → Bool
  | none => false
  | some s => !(s == "")

/-! ## The `connection.update` close handler (`src/whatsapp.js` lines 138-187) -/

/-- One observable step of the reaction to a `connection === 'close'` event. -/
inductive CloseAction where
  /-- `instances.delete(instanceId)` — remove the handle from the in-memory map. -/
  | registryRemove : CloseAction
  /-- `fs.rmSync(sessionPath, ...)` — destroy the persisted credential directory. -/
  | destroySession : CloseAction
  /-- `setTimeout(() => createInstance(..., retryCount + 1), delaySec * 1000)`. -/
  | scheduleRetry (delaySec : Nat) (nextRetryCount : Nat) : CloseAction
  /-- `UPDATE instances SET status = ?, qr_code = NULL WHERE id = ?`. -/
  | persistStatus (status : String) (qrCleared : Bool) : CloseAction
  /-- `sendWebhook(instanceId, ... event: 'disconnected', reason ...)`. -/
  | emitDisconnectedWebhook (reason : String) : CloseAction
deriving DecidableEq, Repr

/-- The inputs of one close event: `lastDisconnect?.error?.output?.statusCode`
(`none` models the whole optional chain being `undefined`) and whether the
session directory exists on disk when the handler runs. -/
structure CloseEvent where
  statusCode : Option Nat
  sessionDirExists : Bool
deriving DecidableEq, Repr

/-- The `connection === 'close'` branch of the `connection.update` handler
registered by `createInstance`, as the ordered trace of its side effects.
`retryCount` is the value captured from the enclosing `createInstance` call.

Source structure: `instances.delete(instanceId)` runs first; then the
`statusCode === 405 && retryCount < 2` early-return path (delete the session
directory if it exists, schedule a retry in 10 s); then
`shouldReconnect && retryCount < 5` (with
`shouldReconnect = statusCode !== DisconnectReason.loggedOut`) schedules a
retry in 5 s; otherwise the terminal path persists status `disconnected` with
`qr_code = NULL` and emits the `disconnected` webhook with reason
`logged_out` exactly when the status code is the logout code. -/
def closeHandler (retryCount : Nat) (ev : CloseEvent) : List CloseAction :=
  CloseAction.registryRemove ::
    (if ev.statusCode = some rateLimitCode ∧ retryCount < 2 then
      (if ev.sessionDirExists then [CloseAction.destroySession] else []) ++
        [CloseAction.scheduleRetry 10 (retryCount + 1)]
    else if ev.statusCode ≠ some loggedOutCode ∧ retryCount < 5 then
      [CloseAction.scheduleRetry 5 (retryCount + 1)]
    else
      [CloseAction.persistStatus "disconnected" true,
       CloseAction.emitDisconnectedWebhook
         (if ev.statusCode = some loggedOutCode then "logged_out" else "failed")])

end WhatsappApi

namespace WhatsappApi

/-- Claim C1: on every close event the Connection Handle is removed from the
Instance Registry as the very first step of the close reaction — strictly
before any retry is scheduled, any terminal `disconnected` state is
persisted, or any `disconnected` webhook is emitted — and no later step of
the reaction touches the registry removal again. -/
theorem closeHandler_registry_removed_first (rc : Nat) (ev : CloseEvent) :
    (closeHandler rc ev).head? = some CloseAction.registryRemove ∧
    CloseAction.registryRemove ∉ (closeHandler rc ev).tail := by
  unfold closeHandler
  refine ⟨rfl, ?_⟩
  rw [List.tail_cons]
  split
  · split <;> simp
  · split <;> simp

/-- Claim C2: for a close event whose reason is not the explicit-logout code
and which is not taken by the rate-limit path, attempts below 5 schedule a
5-second retry with the attempt count incremented; otherwise the close is
terminal — status `disconnected` persisted with the pairing payload cleared,
a `disconnected` webhook emitted with reason `failed` (or `logged_out` when
the reason is the explicit-logout code) and no retry scheduled. -/
theorem closeHandler_generic_and_terminal (rc : Nat) (ev : CloseEvent) :
    (ev.statusCode ≠ some loggedOutCode →
      ¬(ev.statusCode = some rateLimitCode ∧ rc < 2) →
      (rc < 5 →
        closeHandler rc ev =
          [CloseAction.registryRemove, CloseAction.scheduleRetry 5 (rc + 1)]) ∧
      (5 ≤ rc →
        closeHandler rc ev =
          [CloseAction.registryRemove, CloseAction.persistStatus "disconnected" true,
           CloseAction.emitDisconnectedWebhook "failed"])) ∧
    (ev.statusCode = some loggedOutCode →
      closeHandler rc ev =
        [CloseAction.registryRemove, CloseAction.persistStatus "disconnected" true,
         CloseAction.emitDisconnectedWebhook "logged_out"]) := by
  constructor
  · intro hNotLogout hNot405
    constructor
    · intro h5
      unfold closeHandler
      rw [if_neg hNot405, if_pos ⟨hNotLogout, h5⟩]
    · intro h5
      have hNotRetry : ¬(ev.statusCode ≠ some loggedOutCode ∧ rc < 5) := by
        rintro ⟨-, hlt⟩; omega
      unfold closeHandler
      rw [if_neg hNot405, if_neg hNotRetry, if_neg hNotLogout]
  · intro hLogout
    have hNot405 : ¬(ev.statusCode = some rateLimitCode ∧ rc < 2) := by
      rintro ⟨h, -⟩
      rw [hLogout] at h
      exact absurd h (by decide)
    have hNotRetry : ¬(ev.statusCode ≠ some loggedOutCode ∧ rc < 5) := by
      rintro ⟨h, -⟩; exact h hLogout
    unfold closeHandler
    rw [if_neg hNot405, if_neg hNotRetry, if_pos hLogout]

/-- Witness for C2: a transient close (status code 428) on attempt 0 schedules
a 5-second retry with the count incremented, and a logout close is terminal
with reason `logged_out`. -/
theorem closeHandler_generic_and_terminal_witness :
    closeHandler 0 ⟨some 428, false⟩ =
        [CloseAction.registryRemove, CloseAction.scheduleRetry 5 1] ∧
    closeHandler 3 ⟨some 401, false⟩ =
        [CloseAction.registryRemove, CloseAction.persistStatus "disconnected" true,
         CloseAction.emitDisconnectedWebhook "logged_out"] :=
  ⟨((closeHandler_generic_and_terminal 0 ⟨some 428, false⟩).1
      (by decide) (by decide)).1 (by decide),
   (closeHandler_generic_and_terminal 3 ⟨some 401, false⟩).2 (by decide)⟩

/-- Claim C3: on a close with the rate-limit/version-mismatch code 405, the
session directory is destroyed exactly when the attempt count is below 2 and
the directory exists, a 10-second retry is scheduled exactly when the attempt
count is below 2 (then with the attempt count incremented); on later attempts
with the same code credentials are never destroyed. -/
theorem closeHandler_rate_limit_class (rc : Nat) (ev : CloseEvent)
    (h405 : ev.statusCode = some rateLimitCode) :
    (CloseAction.destroySession ∈ closeHandler rc ev ↔
        rc < 2 ∧ ev.sessionDirExists = true) ∧
    ((∃ n, CloseAction.scheduleRetry 10 n ∈ closeHandler rc ev) ↔ rc < 2) ∧
    (rc < 2 → CloseAction.scheduleRetry 10 (rc + 1) ∈ closeHandler rc ev) := by
  by_cases h2 : rc < 2
  · unfold closeHandler
    rw [if_pos ⟨h405, h2⟩]
    cases hsess : ev.sessionDirExists
    · simp [h2]
    · refine ⟨by simp [h2], ?_, by intro _; simp⟩
      exact ⟨fun _ => h2, fun _ => ⟨rc + 1, by simp⟩⟩
  · unfold closeHandler
    rw [if_neg (by rintro ⟨-, h⟩; exact h2 h)]
    have hne : ev.statusCode ≠ some loggedOutCode := by
      rw [h405]; decide
    by_cases h5 : rc < 5
    · rw [if_pos ⟨hne, h5⟩]
      refine ⟨by simp [h2], ?_, fun h => absurd h h2⟩
      constructor
      · rintro ⟨n, hn⟩
        simp at hn
      · intro h; exact absurd h h2
    · rw [if_neg (by rintro ⟨-, h⟩; exact h5 h)]
      refine ⟨by simp [h2], ?_, fun h => absurd h h2⟩
      constructor
      · rintro ⟨n, hn⟩
        simp at hn
      · intro h; exact absurd h h2

/-- Witness for C3: a 405 close on attempt 0 with an existing session
directory destroys the session and schedules the 10-second retry; a 405
close on attempt 2 destroys nothing. -/
theorem closeHandler_rate_limit_class_witness :
    (CloseAction.destroySession ∈ closeHandler 0 ⟨some 405, true⟩) ∧
    (CloseAction.scheduleRetry 10 1 ∈ closeHandler 0 ⟨some 405, true⟩) ∧
    CloseAction.destroySession ∉ closeHandler 2 ⟨some 405, true⟩ :=
  ⟨(closeHandler_rate_limit_class 0 ⟨some 405, true⟩ rfl).1.mpr (by decide),
   (closeHandler_rate_limit_class 0 ⟨some 405, true⟩ rfl).2.2 (by decide),
   fun h => by
    have := (closeHandler_rate_limit_class 2 ⟨some 405, true⟩ rfl).1.mp h
    omega⟩

end WhatsappApi

namespace WhatsappApi

/-! ## The webhook dispatcher `sendWebhook` (`src/whatsapp.js` lines 302-375) -/

/-- One row inserted into `webhook_logs`: the audit record written for a
single delivery attempt (the success branch writes `status_code`/`response`,
the failure branch writes `status_code`/`error`; for the claims only the
attempt number and which branch wrote it matter). -/
structure AuditRecord where
  attempt : Nat
  success : Bool
deriving DecidableEq, Repr

/-- Oracle environment for one `sendWebhook` call: the stored `instances` row
(`none` = no row; otherwise its `webhook_url`/`webhook_token` columns, which
may be NULL), whether the lookup query itself throws, and per attempt number
whether the HTTP POST resolves, whether the success-path audit insert throws,
and whether the failure-path audit insert throws. -/
structure WebhookEnv where
  storedWebhook : Option (Option String × Option String)
  lookupThrows : Bool
  httpOk : Nat → Bool
  successLogThrows : Nat → Bool
  errorLogThrows : Nat → Bool

/-- Outcome of the `for (attempt = 1; attempt <= retries; attempt++)` loop:
`result` is `Except.error ()` when an exception escapes the loop (a failed
failure-path audit insert), `Except.ok none` when the loop finishes without a
`return` statement (the JavaScript function then returns `undefined`), and
`Except.ok (some b)` for `return b`; plus the audit rows inserted, the
attempt numbers on which an HTTP POST was issued, and the backoff delays
awaited (in seconds). -/
structure LoopOut where
  result : Except Unit (Option Bool)
  audits : List AuditRecord
  httpCalls : List Nat
  delays : List Nat

/-- The delivery loop of `sendWebhook`, one recursive step per iteration.
`fuel` bounds the remaining iterations and is called with `fuel = retries`
at `attempt = 1`, so the loop guard `attempt <= retries` can only fail on
entry (when `retries = 0`).  Per iteration: if the POST resolves and the
success audit insert does not throw, insert the success row and return
`true`; otherwise the `catch` block runs — the failure audit insert either
throws (escaping the loop) or inserts the failure row, after which the last
attempt returns `false` and earlier attempts wait `2^(attempt-1)` seconds
and continue. -/
def webhookLoop (env : WebhookEnv) (retries : Nat) : Nat → Nat → LoopOut
  | 0, _ => ⟨Except.ok none, [], [], []⟩
  | fuel + 1, attempt =>
    if retries < attempt then ⟨Except.ok none, [], [], []⟩
    else if env.httpOk attempt = true ∧ env.successLogThrows attempt = false then
      ⟨Except.ok (some true), [⟨attempt, true⟩], [attempt], []⟩
    else if env.errorLogThrows attempt = true then
      ⟨Except.error (), [], [attempt], []⟩
    else if attempt = retries then
      ⟨Except.ok (some false), [⟨attempt, false⟩], [attempt], []⟩
    else
      let rest := webhookLoop env retries fuel (attempt + 1)
      ⟨rest.result, ⟨attempt, false⟩ :: rest.audits, attempt :: rest.httpCalls,
        2 ^ (attempt - 1) :: rest.delays⟩

/-- Observable outcome of a whole `sendWebhook` call: the JavaScript return
value (`none` = `undefined`), the audit rows inserted and the HTTP attempts
issued.  The outer `try/catch` turns any escaped exception into `return
false`, so no variant for an exception reaching the caller is needed. -/
structure WebhookOut where
  result : Option Bool
  audits : List AuditRecord
  httpCalls : List Nat
  delays : List Nat

/-- Default of the `retries` parameter of `sendWebhook`. -/
def defaultRetries : Nat := 3

/-- The URL the delivery loop will use: the `webhookUrl` argument when truthy,
otherwise the `webhook_url` column of the instance row (`none` when the row
is absent). -/
def resolveUrl (env : WebhookEnv) (webhookUrl : Option String) : Option String :=
  if truthyStr webhookUrl = true then webhookUrl
  else
    match env.storedWebhook with
    | none => none
    | some (u, _) => u

/-- How a finished delivery loop is seen by the caller of `sendWebhook`: an
exception escaping the loop is caught by the outer `catch`, which returns
`false`; the audit rows already inserted are kept either way. -/
def loopOutcome (lo : LoopOut) : WebhookOut :=
  match lo.result with
  | Except.error _ => ⟨some false, lo.audits, lo.httpCalls, lo.delays⟩
  | Except.ok r => ⟨r, lo.audits, lo.httpCalls, lo.delays⟩

/-- `sendWebhook(instanceId, payload, webhookUrl, webhookToken, retries)`.
If the `webhookUrl` argument is falsy the stored row is looked up (a throwing
lookup is caught by the outer catch, which returns `false`); a missing row or
falsy stored URL logs a warning and returns `false` with no attempt and no
audit row.  Otherwise the delivery loop runs with `fuel = retries` from
attempt 1. -/
def sendWebhook (env : WebhookEnv) (webhookUrl webhookToken : Option String)
    (retries : Nat) : WebhookOut :=
  if truthyStr webhookUrl = false ∧ env.lookupThrows = true then
    ⟨some false, [], [], []⟩
  else if truthyStr (resolveUrl env webhookUrl) = false then
    ⟨some false, [], [], []⟩
  else
    loopOutcome (webhookLoop env retries retries 1)

theorem webhookLoop_all_fail (env : WebhookEnv) (retries : Nat) :
    ∀ fuel attempt, attempt + fuel = retries + 1 → 1 ≤ attempt → attempt ≤ retries →
    (∀ i, attempt ≤ i → i ≤ retries → env.httpOk i = false) →
    (∀ i, env.errorLogThrows i = false) →
    (webhookLoop env retries fuel attempt).result = Except.ok (some false) ∧
    (webhookLoop env retries fuel attempt).audits.length = fuel := by
  intro fuel
  induction fuel with
  | zero => intro attempt hsum h1 h2 _ _; omega
  | succ fuel ih =>
    intro attempt hsum h1 h2 hfail hlog
    have hguard : ¬ retries < attempt := by omega
    have hhttp : env.httpOk attempt = false := hfail attempt le_rfl h2
    rw [webhookLoop, if_neg hguard,
      if_neg (by rintro ⟨h, -⟩; rw [hhttp] at h; exact absurd h (by decide)),
      if_neg (by rw [hlog attempt]; decide)]
    by_cases hlast : attempt = retries
    · rw [if_pos hlast]
      exact ⟨rfl, by simp; omega⟩
    · rw [if_neg hlast]
      have := ih (attempt + 1) (by omega) (by omega) (by omega)
        (fun i hi1 hi2 => hfail i (by omega) hi2) hlog
      exact ⟨this.1, by simpa using this.2⟩

theorem webhookLoop_first_success (env : WebhookEnv) (retries : Nat) :
    ∀ fuel attempt k, attempt + fuel = retries + 1 → 1 ≤ attempt →
    attempt ≤ k → k ≤ retries →
    env.httpOk k = true →
    (∀ i, attempt ≤ i → i < k → env.httpOk i = false) →
    (∀ i, env.successLogThrows i = false) →
    (∀ i, env.errorLogThrows i = false) →
    (webhookLoop env retries fuel attempt).result = Except.ok (some true) ∧
    (webhookLoop env retries fuel attempt).audits.length = k + 1 - attempt := by
  intro fuel
  induction fuel with
  | zero => intro attempt k hsum h1 hak hk _ _ _ _; omega
  | succ fuel ih =>
    intro attempt k hsum h1 hak hk hsucc hbefore hslog helog
    have hguard : ¬ retries < attempt := by omega
    rw [webhookLoop, if_neg hguard]
    by_cases heq : attempt = k
    · subst heq
      rw [if_pos ⟨hsucc, hslog attempt⟩]
      exact ⟨rfl, by simp⟩
    · have hlt : attempt < k := by omega
      have hhttp : env.httpOk attempt = false := hbefore attempt le_rfl hlt
      rw [if_neg (by rintro ⟨h, -⟩; rw [hhttp] at h; exact absurd h (by decide)),
        if_neg (by rw [helog attempt]; decide),
        if_neg (by omega : ¬ attempt = retries)]
      have := ih (attempt + 1) k (by omega) (by omega) (by omega) hk hsucc
        (fun i hi1 hi2 => hbefore i (by omega) hi2) hslog helog
      refine ⟨this.1, ?_⟩
      have h2 := this.2
      simp only [List.length_cons]
      omega

theorem webhookLoop_never_undefined (env : WebhookEnv) (retries : Nat) :
    ∀ fuel attempt, attempt + fuel = retries + 1 → attempt ≤ retries →
    (webhookLoop env retries fuel attempt).result ≠ Except.ok none := by
  intro fuel
  induction fuel with
  | zero => intro attempt hsum h2; omega
  | succ fuel ih =>
    intro attempt hsum h2
    have hguard : ¬ retries < attempt := by omega
    rw [webhookLoop, if_neg hguard]
    by_cases hs : env.httpOk attempt = true ∧ env.successLogThrows attempt = false
    · rw [if_pos hs]; intro h; exact Option.noConfusion (Except.ok.inj h)
    · rw [if_neg hs]
      by_cases he : env.errorLogThrows attempt = true
      · rw [if_pos he]; intro h; exact Except.noConfusion h
      · rw [if_neg he]
        by_cases hlast : attempt = retries
        · rw [if_pos hlast]; intro h; exact Option.noConfusion (Except.ok.inj h)
        · rw [if_neg hlast]
          exact ih (attempt + 1) (by omega) (by omega)

end WhatsappApi

namespace WhatsappApi

/-- Claim C4: with a configured URL, `N ≥ 1` allowed attempts and a working
audit store, a delivery in which every attempt fails writes exactly `N`
webhook audit records and returns `false`, and a delivery whose first
success is on attempt `k ≤ N` writes exactly `k` audit records and returns
`true` — one record per attempt made. -/
theorem sendWebhook_audit_counts (env : WebhookEnv) (url token : Option String)
    (retries : Nat) (hurl : truthyStr url = true) (hret : 1 ≤ retries)
    (hslog : ∀ i, env.successLogThrows i = false)
    (helog : ∀ i, env.errorLogThrows i = false) :
    ((∀ i, 1 ≤ i → i ≤ retries → env.httpOk i = false) →
      (sendWebhook env url token retries).result = some false ∧
      (sendWebhook env url token retries).audits.length = retries) ∧
    (∀ k, 1 ≤ k → k ≤ retries → env.httpOk k = true →
      (∀ i, 1 ≤ i → i < k → env.httpOk i = false) →
      (sendWebhook env url token retries).result = some true ∧
      (sendWebhook env url token retries).audits.length = k) := by
  have hshape : sendWebhook env url token retries =
      loopOutcome (webhookLoop env retries retries 1) := by
    unfold sendWebhook
    rw [if_neg (by rw [hurl]; rintro ⟨h, -⟩; exact Bool.noConfusion h),
      if_neg (by simp [resolveUrl, hurl])]
  constructor
  · intro hfail
    have hlo := webhookLoop_all_fail env retries retries 1 (by omega) le_rfl hret
      hfail helog
    rw [hshape]
    unfold loopOutcome
    rw [hlo.1]
    exact ⟨rfl, hlo.2⟩
  · intro k hk1 hk2 hsucc hbefore
    have hlo := webhookLoop_first_success env retries retries 1 k (by omega) le_rfl
      hk1 hk2 hsucc hbefore hslog helog
    rw [hshape]
    unfold loopOutcome
    rw [hlo.1]
    refine ⟨rfl, ?_⟩
    show (webhookLoop env retries retries 1).audits.length = k
    have := hlo.2
    omega

/-- A concrete oracle environment for the dispatcher: the endpoint fails on
attempt 1 and succeeds from attempt 2 on; every database write succeeds. -/
def envSucceedsAt2 : WebhookEnv :=
  ⟨none, false, fun i => i == 2, fun _ => false, fun _ => false⟩

/-- Witness for C4: with 3 allowed attempts against an endpoint that first
succeeds on attempt 2, the call returns `true` and exactly 2 audit records
are written. -/
theorem sendWebhook_audit_counts_witness :
    (sendWebhook envSucceedsAt2 (some "https://example.test/hook") none 3).result =
        some true ∧
    (sendWebhook envSucceedsAt2 (some "https://example.test/hook") none 3).audits.length =
        2 :=
  (sendWebhook_audit_counts envSucceedsAt2 (some "https://example.test/hook") none 3
      (by decide) (by decide) (fun _ => rfl) (fun _ => rfl)).2 2
    (by decide) (by decide) rfl
    (by
      intro i h1 h2
      have hi : i = 1 := by omega
      subst hi
      rfl)

/-- Claim C8: when no URL argument is passed and the instance has no stored
webhook URL (and the lookup itself succeeds), `sendWebhook` returns `false`
without issuing any HTTP request and without writing any audit record. -/
theorem sendWebhook_no_url (env : WebhookEnv) (url token : Option String)
    (retries : Nat) (hArg : truthyStr url = false)
    (hLookup : env.lookupThrows = false)
    (hStored : ∀ u t, env.storedWebhook = some (u, t) → truthyStr u = false) :
    sendWebhook env url token retries = ⟨some false, [], [], []⟩ := by
  have hres : truthyStr (resolveUrl env url) = false := by
    unfold resolveUrl
    rw [if_neg (by rw [hArg]; exact Bool.noConfusion)]
    cases hsw : env.storedWebhook with
    | none => rfl
    | some p =>
      obtain ⟨u, t⟩ := p
      exact hStored u t hsw
  unfold sendWebhook
  rw [if_neg (by rintro ⟨-, h⟩; rw [hLookup] at h; exact Bool.noConfusion h),
    if_pos hres]

/-- Witness for C8: no URL argument, no stored instance row — the call is
`false` with empty audit and HTTP traces. -/
theorem sendWebhook_no_url_witness :
    sendWebhook ⟨none, false, fun _ => true, fun _ => false, fun _ => false⟩
        none none 3 = ⟨some false, [], [], []⟩ :=
  sendWebhook_no_url ⟨none, false, fun _ => true, fun _ => false, fun _ => false⟩
    none none 3 rfl rfl (fun _ _ h => Option.noConfusion h)

/-- Claim C10: with at least one allowed attempt, `sendWebhook` always hands
its caller a boolean — it never raises and never returns `undefined`, no
matter whether the HTTP POSTs, the configuration lookup or the audit-record
inserts themselves fail; a failed success-path audit insert is treated as a
failed attempt by the catch block, not thrown. -/
theorem sendWebhook_returns_boolean (env : WebhookEnv) (url token : Option String)
    (retries : Nat) (hret : 1 ≤ retries) :
    (sendWebhook env url token retries).result = some true ∨
    (sendWebhook env url token retries).result = some false := by
  unfold sendWebhook
  by_cases h1 : truthyStr url = false ∧ env.lookupThrows = true
  · rw [if_pos h1]; exact Or.inr rfl
  · rw [if_neg h1]
    by_cases h2 : truthyStr (resolveUrl env url) = false
    · rw [if_pos h2]; exact Or.inr rfl
    · rw [if_neg h2]
      have hne := webhookLoop_never_undefined env retries retries 1 (by omega) hret
      unfold loopOutcome
      rcases hres : (webhookLoop env retries retries 1).result with e | r
      · exact Or.inr rfl
      · rcases r with _ | b
        · exact absurd hres hne
        · cases b
          · exact Or.inr rfl
          · exact Or.inl rfl

/-- Witness for C10: even when the configuration lookup throws and every
database write would throw, the dispatcher still returns a boolean. -/
theorem sendWebhook_returns_boolean_witness :
    (sendWebhook ⟨none, true, fun _ => false, fun _ => true, fun _ => true⟩
        none none 3).result = some true ∨
    (sendWebhook ⟨none, true, fun _ => false, fun _ => true, fun _ => true⟩
        none none 3).result = some false :=
  sendWebhook_returns_boolean ⟨none, true, fun _ => false, fun _ => true, fun _ => true⟩
    none none 3 (by decide)

end WhatsappApi

namespace WhatsappApi

/-! ## Inbound message classification (`src/whatsapp.js` lines 204-226) -/

/-- The fields of `msg.message.extendedTextMessage` the handler reads: the
`.text` field may itself be absent (`none` models `undefined`). -/
structure ExtendedText where
  text : Option String
deriving DecidableEq, Repr

/-- The part of one `messages.upsert` message the classifier inspects.  A
media field is `some caption?` when the corresponding message object is
present, carrying its optional `caption`; `audioMessage` has no caption read
from it, so only its presence matters. -/
structure UpsertMessage where
  conversation : Option String
  extendedTextMessage : Option ExtendedText
  imageMessage : Option (Option String)
  videoMessage : Option (Option String)
  audioMessage : Bool
  documentMessage : Option (Option String)
deriving DecidableEq, Repr

/-- `caption || two-quote fallback`: the caption when truthy, the empty string
otherwise (an empty caption also yields the empty string). -/
def jsOrEmpty (c : Option String) : String :=
  match c with
  | some s => if truthyStr (some s) = true then s else ""
  | none => ""

/-- The `else if` cascade of the `messages.upsert` handler assigning
`messageType` and `text` (the initial values `'text'` and the empty string
survive when no branch matches).  Returns the pair
`(messageType, text)` where the second component is the JavaScript value of
`text` (`none` models `undefined`, reachable only through an
`extendedTextMessage` whose `.text` field is absent). -/
def classifyMessage (m : UpsertMessage) : String × Option String :=
  if truthyStr m.conversation = true then ("text", m.conversation)
  else
    match m.extendedTextMessage with
    | some ext => ("text", ext.text)
    | none =>
      match m.imageMessage with
      | some img => ("image", some (jsOrEmpty img))
      | none =>
        match m.videoMessage with
        | some vid => ("video", some (jsOrEmpty vid))
        | none =>
          if m.audioMessage = true then ("audio", some "")
          else
            match m.documentMessage with
            | some doc => ("document", some (jsOrEmpty doc))
            | none => ("text", some "")

/-- Claim C5: every inbound message is classified into exactly one of
text/image/video/audio/document by the fixed precedence order plain text >
extended text > image > video > audio > document, extracting the caption or
body when present and the empty string otherwise; in particular a message
with a truthy plain-text field is `text` whatever other fields it has, and a
message with only an image field is `image` with the caption as text. -/
theorem classifyMessage_precedence (m : UpsertMessage) :
    ((classifyMessage m).1 = "text" ∨ (classifyMessage m).1 = "image" ∨
     (classifyMessage m).1 = "video" ∨ (classifyMessage m).1 = "audio" ∨
     (classifyMessage m).1 = "document") ∧
    (truthyStr m.conversation = true → classifyMessage m = ("text", m.conversation)) ∧
    (truthyStr m.conversation = false →
      ∀ ext, m.extendedTextMessage = some ext → classifyMessage m = ("text", ext.text)) ∧
    (truthyStr m.conversation = false → m.extendedTextMessage = none →
      ∀ cap, m.imageMessage = some cap →
        classifyMessage m = ("image", some (jsOrEmpty cap))) ∧
    (truthyStr m.conversation = false → m.extendedTextMessage = none →
      m.imageMessage = none → ∀ cap, m.videoMessage = some cap →
        classifyMessage m = ("video", some (jsOrEmpty cap))) ∧
    (truthyStr m.conversation = false → m.extendedTextMessage = none →
      m.imageMessage = none → m.videoMessage = none → m.audioMessage = true →
        classifyMessage m = ("audio", some "")) ∧
    (truthyStr m.conversation = false → m.extendedTextMessage = none →
      m.imageMessage = none → m.videoMessage = none → m.audioMessage = false →
      ∀ cap, m.documentMessage = some cap →
        classifyMessage m = ("document", some (jsOrEmpty cap))) ∧
    (truthyStr m.conversation = false → m.extendedTextMessage = none →
      ∀ c, m.imageMessage = some (some c) → c ≠ "" →
        (classifyMessage m).2 = some c) := by
  obtain ⟨conv, ext, img, vid, aud, doc⟩ := m
  refine ⟨?_, ?_, ?_, ?_, ?_, ?_, ?_, ?_⟩
  · by_cases h : truthyStr conv = true <;>
      cases ext <;> cases img <;> cases vid <;> cases aud <;> cases doc <;>
      simp [classifyMessage, h]
  · intro h
    simp [classifyMessage, h]
  · intro h e he
    subst he
    simp [classifyMessage, h]
  · intro h he cap hc
    subst he hc
    simp [classifyMessage, h]
  · intro h he hi cap hc
    subst he hi hc
    simp [classifyMessage, h]
  · intro h he hi hv ha
    subst he hi hv ha
    simp [classifyMessage, h]
  · intro h he hi hv ha cap hc
    subst he hi hv ha hc
    simp [classifyMessage, h]
  · intro h he c hc hne
    subst he hc
    have hc2 : truthyStr (some c) = true := by simp [truthyStr, hne]
    simp [classifyMessage, h, jsOrEmpty, hc2]

/-- Witness for C5: a message carrying both a plain-text body and an image is
classified `text` with the body as text, and a message carrying only an
image with a caption is classified `image` with the caption as text. -/
theorem classifyMessage_precedence_witness :
    classifyMessage ⟨some "hola", none, some (some "pic"), none, false, none⟩ =
        ("text", some "hola") ∧
    classifyMessage ⟨none, none, some (some "pic"), none, false, none⟩ =
        ("image", some "pic") :=
  ⟨(classifyMessage_precedence ⟨some "hola", none, some (some "pic"), none, false, none⟩).2.1
      (by decide),
   (classifyMessage_precedence ⟨none, none, some (some "pic"), none, false, none⟩).2.2.2.1
      rfl rfl (some "pic") rfl⟩

end WhatsappApi

namespace WhatsappApi

/-! ## Outbound send `sendMessage` (`src/whatsapp.js` lines 384-433) -/

/-- One observable step of `sendMessage`. -/
inductive SendAction where
  /-- `sock.sendMessage(jid, { image: buffer, caption: text })`, carrying the
  base64 payload after the data-URL strip in place of the decoded buffer. -/
  | sendImage (jid : String) (base64Data : String) (caption : String) : SendAction
  /-- `sock.sendMessage(jid, { text })`. -/
  | sendText (jid : String) (text : String) : SendAction
  /-- `INSERT INTO messages (...)` for the outbound record. -/
  | insertMessageRow : SendAction
deriving DecidableEq, Repr

/-- `phone.includes('@') ? phone : phone + '@s.whatsapp.net'`. -/
def formatJid (phone : String) : String :=
  if phone.data.contains '@' = true then phone else phone ++ "@s.whatsapp.net"

/-- `split(sep)` on a character list, one group per separator occurrence. -/
def splitChar (sep : Char) : List Char → List (List Char)
  | [] => [[]]
  | c :: cs =>
    match splitChar sep cs with
    | [] => [[]]
    | g :: gs => if c = sep then [] :: g :: gs else (c :: g) :: gs

/-- `base64Image.split(',')[1] || base64Image`: the part after the first comma
when it is truthy, the whole string otherwise. -/
def stripDataUrl (s : String) : String :=
  match (splitChar ',' s.data).get? 1 with
  | some rest =>
    if truthyStr (some (String.mk rest)) = true then String.mk rest else s
  | none => s

/-- Outcome of one `sendMessage` call: the transport/database steps taken in
order and the JavaScript result (`Except.error` models a thrown exception —
the `catch` block of the source logs and rethrows). -/
structure SendOut where
  actions : List SendAction
  result : Except String String
deriving Repr

/-- The message the `catch` block rethrows when no live handle exists. -/
def instanceNotFoundMsg (instanceId : String) : String :=
  "Instance " ++ instanceId ++ " not found or not connected"

/-- The error raised when the outbound insert evaluates its `message_type`
argument: the expression reads the identifier `mediaUrl`, which is declared
only inside the `messages.upsert` handler and not in `sendMessage`, so the
evaluation raises a ReferenceError before the row is inserted. -/
def referenceErrorMediaUrl : String := "ReferenceError: mediaUrl is not defined"

/-- `sendMessage(instanceId, phone, text, base64Image)`: fails when no live
handle is registered for `instanceId`; otherwise issues the transport send
(image-with-caption when the image payload is truthy, plain text otherwise)
and then evaluates the arguments of the outbound `INSERT INTO messages`, at
which point the reference to the undefined identifier `mediaUrl` in
`mediaUrl ? 'image' : 'text'` raises a ReferenceError, so the insert never
runs and the message identifier is never returned. -/
def sendMessage (registry : List String) (instanceId phone text : String)
    (base64Image : Option String) : SendOut :=
  if registry.contains instanceId = false then
    ⟨[], Except.error (instanceNotFoundMsg instanceId)⟩
  else
    let jid := formatJid phone
    match base64Image with
    | some img =>
      if truthyStr (some img) = true then
        ⟨[SendAction.sendImage jid (stripDataUrl img) text],
         Except.error referenceErrorMediaUrl⟩
      else
        ⟨[SendAction.sendText jid text], Except.error referenceErrorMediaUrl⟩
    | none => ⟨[SendAction.sendText jid text], Except.error referenceErrorMediaUrl⟩

/-- Claim C6 fails on the code: with a live Connection Handle the transport
send is issued, but the call then raises a ReferenceError (the undefined
identifier `mediaUrl` in the insert arguments), so no Message Record is
persisted and no message identifier is returned.  Evaluated here at a
concrete failing input for both the plain-text and the image path. -/
theorem sendMessage_raises_reference_error :
    sendMessage ["acme1"] "acme1" "5551234" "hola" none =
      ⟨[SendAction.sendText "5551234@s.whatsapp.net" "hola"],
       Except.error referenceErrorMediaUrl⟩ ∧
    sendMessage ["acme1"] "acme1" "5551234" "hola" (some "data:image/jpeg;base64,QUJD") =
      ⟨[SendAction.sendImage "5551234@s.whatsapp.net" "QUJD" "hola"],
       Except.error referenceErrorMediaUrl⟩ ∧
    SendAction.insertMessageRow ∉
      (sendMessage ["acme1"] "acme1" "5551234" "hola" none).actions := by
  refine ⟨rfl, rfl, ?_⟩
  decide

/-! ## `createInstance` entry (`src/whatsapp.js` lines 19-41, 71-83, 282-287) -/

/-- The side-effecting steps of a successful `createInstance` call, in source
order. -/
inductive CreateAction where
  /-- `fs.mkdirSync(sessionPath, ...)` when the directory does not exist. -/
  | ensureSessionDir : CreateAction
  /-- `useMultiFileAuthState(sessionPath)`. -/
  | loadAuthState : CreateAction
  /-- `makeWASocket(...)` — the transport connection attempt. -/
  | openSocket : CreateAction
  /-- `INSERT INTO instances ... ON DUPLICATE KEY UPDATE ...` with status `connecting`. -/
  | upsertInstanceRow : CreateAction
  /-- `instances.set(instanceId, sock)`. -/
  | registryInsert : CreateAction
deriving DecidableEq, Repr

/-- Outcome of the modelled part of `createInstance`: the registry after the
call, the steps taken and the JavaScript result. -/
structure CreateOut where
  registry : List String
  actions : List CreateAction
  result : Except String Unit
deriving Repr

/-- `createInstance(instanceId, ...)` up to the synchronous registration
steps: if a handle already exists in `instances`, the call throws
`'Instance already exists'` before any filesystem, transport, database or
registry step; otherwise it runs the creation steps and inserts the handle. -/
def createInstance (registry : List String) (instanceId : String) : CreateOut :=
  if registry.contains instanceId = true then
    ⟨registry, [], Except.error "Instance already exists"⟩
  else
    ⟨instanceId :: registry,
     [CreateAction.ensureSessionDir, CreateAction.loadAuthState,
      CreateAction.openSocket, CreateAction.upsertInstanceRow,
      CreateAction.registryInsert],
     Except.ok ()⟩

/-- Claim C7: calling `create` for an id whose Connection Handle is already
in the Registry fails with the already-active error and performs no
connection attempt, no persistence write and no registry change. -/
theorem createInstance_already_active (registry : List String) (instanceId : String)
    (h : registry.contains instanceId = true) :
    createInstance registry instanceId =
      ⟨registry, [], Except.error "Instance already exists"⟩ := by
  unfold createInstance
  rw [if_pos h]

/-- Witness for C7: creating `acme1` while `acme1` is registered fails with
no actions and the registry unchanged. -/
theorem createInstance_already_active_witness :
    createInstance ["acme1"] "acme1" =
      ⟨["acme1"], [], Except.error "Instance already exists"⟩ :=
  createInstance_already_active ["acme1"] "acme1" (by decide)

end WhatsappApi

namespace WhatsappApi

/-! ## `deleteInstance` (`src/whatsapp.js` lines 485-515) together with the
persistence schema of `src/database.js` -/

/-- The persisted rows that matter to instance deletion, each table reduced
to the `id`/`instance_id` column of its rows. -/
structure Db where
  instances : List String
  messages : List String
  webhookLogs : List String
deriving DecidableEq, Repr

/-- `DELETE FROM instances WHERE id = ?` under the schema created by
`initDatabase`: `messages.instance_id` declares
`FOREIGN KEY ... REFERENCES instances(id) ON DELETE CASCADE`, while the
`webhook_logs` table declares no foreign key at all, so the delete removes
the instance row and its message rows but leaves its webhook audit rows in
place. -/
def deleteRowCascade (db : Db) (id : String) : Db :=
  ⟨db.instances.filter (fun i => i != id),
   db.messages.filter (fun i => i != id),
   db.webhookLogs⟩

/-- One observable step of `deleteInstance`. -/
inductive DeleteAction where
  /-- `await sock.logout()`. -/
  | logoutCall : DeleteAction
  /-- `console.warn(...)` in the catch around the logout — the failure is
  logged and swallowed. -/
  | warnLogoutFailed : DeleteAction
  /-- `instances.delete(instanceId)`. -/
  | registryRemove : DeleteAction
  /-- `fs.rmSync(sessionPath, ...)`. -/
  | removeSessionDir : DeleteAction
  /-- `DELETE FROM instances WHERE id = ?`. -/
  | deleteRow : DeleteAction
deriving DecidableEq, Repr

/-- Process state an instance deletion runs against: the in-memory registry,
whether the session directory exists, and whether `sock.logout()` throws. -/
structure DeleteEnv where
  registry : List String
  sessionDirExists : Bool
  logoutThrows : Bool
deriving DecidableEq, Repr

/-- Outcome of one `deleteInstance` call. -/
structure DeleteOut where
  registry : List String
  db : Db
  actions : List DeleteAction
  result : Except String Unit
deriving Repr

/-- `deleteInstance(instanceId)`: when a live handle exists, a best-effort
logout runs (its failure is warned about, never propagated) and the handle
is removed from the registry; the session directory is removed when it
exists; finally the instance row is deleted with the schema's cascade.  The
call returns success whether or not a handle or row existed. -/
def deleteInstance (env : DeleteEnv) (db : Db) (instanceId : String) : DeleteOut :=
  let handleActs : List DeleteAction :=
    if env.registry.contains instanceId = true then
      DeleteAction.logoutCall ::
        ((if env.logoutThrows = true then [DeleteAction.warnLogoutFailed] else []) ++
          [DeleteAction.registryRemove])
    else []
  let registry1 : List String :=
    if env.registry.contains instanceId = true then
      env.registry.filter (fun i => i != instanceId)
    else env.registry
  let sessionActs : List DeleteAction :=
    if env.sessionDirExists = true then [DeleteAction.removeSessionDir] else []
  ⟨registry1, deleteRowCascade db instanceId,
   handleActs ++ sessionActs ++ [DeleteAction.deleteRow],
   Except.ok ()⟩

/-- Claim C9 fails on the schema: deleting `acme1` with no live handle does
succeed, removes the persisted instance row, the session directory and the
instance's message rows, and a logout failure on a live handle is only
warned about — but the instance's webhook audit rows are NOT cascaded,
because `webhook_logs` declares no foreign key.  Evaluated at a database
holding one message row and one audit row for `acme1`. -/
theorem deleteInstance_audit_rows_not_cascaded :
    (deleteInstance ⟨[], true, false⟩ ⟨["acme1"], ["acme1"], ["acme1"]⟩ "acme1").result =
        Except.ok () ∧
    (deleteInstance ⟨[], true, false⟩ ⟨["acme1"], ["acme1"], ["acme1"]⟩ "acme1").db =
        ⟨[], [], ["acme1"]⟩ ∧
    DeleteAction.removeSessionDir ∈
      (deleteInstance ⟨[], true, false⟩ ⟨["acme1"], ["acme1"], ["acme1"]⟩ "acme1").actions ∧
    (deleteInstance ⟨["acme1"], true, true⟩ ⟨["acme1"], [], []⟩ "acme1").result =
        Except.ok () ∧
    DeleteAction.warnLogoutFailed ∈
      (deleteInstance ⟨["acme1"], true, true⟩ ⟨["acme1"], [], []⟩ "acme1").actions := by
  refine ⟨rfl, ?_, ?_, rfl, ?_⟩ <;> decide

end WhatsappApi
